import Mathlib

/-!
Verification of the provider-adapter and routing layer of an OpenAI-compatible
AI gateway. The definitions below are a shallow embedding of the Python source:

* `Settings` — the provider-credential part of `app/config.py:Settings`
  (pydantic fields of type `Optional[str]`, so `none` models Python `None`
  and truthiness treats both `None` and `""` as absent).
* `get_adapter`, `get_adapter_for_model` — `app/adapters/factory.py`.
* `convert_messages_to_claude`, `convert_claude_to_openai`,
  `claude_chat_completion_args`, `claude_chat_completion_stream_args` —
  `app/adapters/claude_adapter.py`.
* `stream_generator` — the SSE generator in `app/routers/chat.py`.
* `configured_providers`, `list_models_data` — `app/routers/models.py`.
* `embeddings_route`, `adapter_create_embedding` — `app/routers/embeddings.py`
  together with each adapter's `create_embedding`.
-/

/-- Provider-credential slice of the process settings (`app/config.py`).
Each API-key field is `Optional[str]` in the source, modelled as
`Option String`; `AWS_REGION` has a plain string default. -/
structure Settings where
  OPENAI_API_KEY : Option String
  ANTHROPIC_API_KEY : Option String
  AZURE_OPENAI_ENDPOINT : Option String
  AZURE_OPENAI_API_KEY : Option String
  GEMINI_API_KEY : Option String
  GROK_API_KEY : Option String
  AWS_REGION : String
  AWS_ACCESS_KEY_ID : Option String
  AWS_SECRET_ACCESS_KEY : Option String
deriving DecidableEq, Repr

deriving instance DecidableEq for Except

/-- Python truthiness of an `Optional[str]` credential: `None` and the empty
string are falsy, every other string is truthy. -/
def truthy : Option String → Bool
  | none => false
  | some s => s != ""

/-- Python `str.lower()`, modelled on the character list (the identifiers the
source lower-cases are ASCII) so that proofs can evaluate it. -/
def pyLower (s : String) : String := ⟨s.data.map Char.toLower⟩

/-- Python `str.startswith(p)`, modelled on the character lists so that proofs
can evaluate it. -/
def pyStartswith (s p : String) : Bool := p.data.isPrefixOf s.data

/-- One constructed provider adapter, carrying the constructor arguments the
factory passes (`OpenAIAdapter(api_key=...)`, `AzureAdapter(api_key, endpoint)`,
`BedrockAdapter(access key, secret key, region)`, ...). -/
inductive Adapter where
  | openai (api_key : String)
  | claude (api_key : String)
  | azure (api_key : String) (endpoint : String)
  | bedrock (aws_access_key_id : String) (aws_secret_access_key : String) (region : String)
  | gemini (api_key : String)
  | grok (api_key : String)
deriving DecidableEq, Repr

/-- Provider name of an adapter (which concrete adapter class was built). -/
def providerOf : Adapter → String
  | Adapter.openai _ => "openai"
  | Adapter.claude _ => "claude"
  | Adapter.azure _ _ => "azure"
  | Adapter.bedrock _ _ _ => "bedrock"
  | Adapter.gemini _ => "gemini"
  | Adapter.grok _ => "grok"

/-- `AdapterFactory.get_adapter` (`app/adapters/factory.py`, lines 16-64):
lower-cases the provider name, checks the provider's credentials for
truthiness and raises `ValueError` (modelled as `Except.error` with the exact
message) when they are absent, otherwise constructs the adapter from the
credential values; an unrecognized name raises `ValueError("Unsupported
provider: ...")`. -/
def get_adapter (st : Settings) (provider : String) : Except String Adapter :=
  let provider_lower := pyLower provider
  if provider_lower = "openai" then
    if truthy st.OPENAI_API_KEY = false then
      Except.error "OPENAI_API_KEY not configured"
    else
      Except.ok (Adapter.openai (st.OPENAI_API_KEY.getD ""))
  else if provider_lower = "claude" then
    if truthy st.ANTHROPIC_API_KEY = false then
      Except.error "ANTHROPIC_API_KEY not configured"
    else
      Except.ok (Adapter.claude (st.ANTHROPIC_API_KEY.getD ""))
  else if provider_lower = "azure" then
    if truthy st.AZURE_OPENAI_API_KEY = false || truthy st.AZURE_OPENAI_ENDPOINT = false then
      Except.error "Azure OpenAI credentials not configured"
    else
      Except.ok (Adapter.azure (st.AZURE_OPENAI_API_KEY.getD "") (st.AZURE_OPENAI_ENDPOINT.getD ""))
  else if provider_lower = "bedrock" then
    if truthy st.AWS_ACCESS_KEY_ID = false || truthy st.AWS_SECRET_ACCESS_KEY = false then
      Except.error "AWS credentials not configured"
    else
      Except.ok (Adapter.bedrock (st.AWS_ACCESS_KEY_ID.getD "") (st.AWS_SECRET_ACCESS_KEY.getD "") st.AWS_REGION)
  else if provider_lower = "gemini" then
    if truthy st.GEMINI_API_KEY = false then
      Except.error "GEMINI_API_KEY not configured"
    else
      Except.ok (Adapter.gemini (st.GEMINI_API_KEY.getD ""))
  else if provider_lower = "grok" then
    if truthy st.GROK_API_KEY = false then
      Except.error "GROK_API_KEY not configured"
    else
      Except.ok (Adapter.grok (st.GROK_API_KEY.getD ""))
  else
    Except.error ("Unsupported provider: " ++ provider)

/-- `AdapterFactory.get_adapter_for_model` (`app/adapters/factory.py`,
lines 66-91): lower-cases the model id and dispatches on the registered
model-name beginnings in source order, delegating to `get_adapter`; an
unmatched model raises `ValueError("Unknown model: ...")`. -/
def get_adapter_for_model (st : Settings) (model : String) : Except String Adapter :=
  let model_lower := pyLower model
  if pyStartswith model_lower "gpt-" || pyStartswith model_lower "o1-"
      || pyStartswith model_lower "text-embedding-" then
    get_adapter st "openai"
  else if pyStartswith model_lower "claude-" then
    get_adapter st "claude"
  else if pyStartswith model_lower "gemini-" then
    get_adapter st "gemini"
  else if pyStartswith model_lower "grok-" then
    get_adapter st "grok"
  else
    Except.error ("Unknown model: " ++ model
      ++ ". Model must start with a recognized provider prefix (gpt-, claude-, gemini-, grok-, etc.)")

/-- Ordered routing table of the registered model-name beginnings, written as
data to state the routing claim: each pair maps a model-id beginning to the
provider it selects, in the order the source tests them. -/
def modelRouteTable : List (String × String) :=
  [("gpt-", "openai"), ("o1-", "openai"), ("text-embedding-", "openai"),
   ("claude-", "claude"), ("gemini-", "gemini"), ("grok-", "grok")]

/-- First routing rule (in table order) matched by a model id, if any. -/
def firstRouteMatch (model : String) : Option String :=
  (modelRouteTable.find? (fun r => pyStartswith (pyLower model) r.1)).map (fun r => r.2)

/-- Whether a factory result is the `Unknown model` failure of
`get_adapter_for_model` (the `UnknownModelError` class of the spec). -/
def isUnknownModelErr (r : Except String Adapter) : Bool :=
  match r with
  | Except.error msg => pyStartswith msg "Unknown model: "
  | Except.ok _ => false

/-- Concrete settings used to instantiate the universally quantified theorems:
the four chat providers hold truthy keys, Azure and Bedrock are unconfigured. -/
def testSettings : Settings :=
  ⟨some "sk-openai-test", some "sk-ant-test", none, none,
   some "g-test", some "x-test", "us-east-1", none, none⟩

/-- Evaluation of the factory at provider name `openai` when the key is truthy. -/
lemma get_adapter_openai_eval (st : Settings) (h : truthy st.OPENAI_API_KEY = true) :
    get_adapter st "openai" = Except.ok (Adapter.openai (st.OPENAI_API_KEY.getD "")) := by
  simp [get_adapter, show pyLower "openai" = "openai" from by decide, h]

/-- Evaluation of the factory at provider name `claude` when the key is truthy. -/
lemma get_adapter_claude_eval (st : Settings) (h : truthy st.ANTHROPIC_API_KEY = true) :
    get_adapter st "claude" = Except.ok (Adapter.claude (st.ANTHROPIC_API_KEY.getD "")) := by
  simp [get_adapter, show pyLower "claude" = "claude" from by decide, h]

/-- Evaluation of the factory at provider name `gemini` when the key is truthy. -/
lemma get_adapter_gemini_eval (st : Settings) (h : truthy st.GEMINI_API_KEY = true) :
    get_adapter st "gemini" = Except.ok (Adapter.gemini (st.GEMINI_API_KEY.getD ""))  := by
  simp [get_adapter, show pyLower "gemini" = "gemini" from by decide, h]

/-- Evaluation of the factory at provider name `grok` when the key is truthy. -/
lemma get_adapter_grok_eval (st : Settings) (h : truthy st.GROK_API_KEY = true) :
    get_adapter st "grok" = Except.ok (Adapter.grok (st.GROK_API_KEY.getD "")) := by
  simp [get_adapter, show pyLower "grok" = "grok" from by decide, h]

/-- C1: for every model id whose lowercased form starts with a registered rule
of the routing table (`gpt-`, `o1-`, `text-embedding-` mapping to openai,
`claude-` to claude, `gemini-` to gemini, `grok-` to grok), and given the
mapped providers' credentials, `get_adapter_for_model` returns an adapter of
the provider the first matching rule names; for every model id matching no
rule it fails with the `Unknown model` (UnknownModelError-class) error rather
than returning an adapter. -/
theorem get_adapter_for_model_routes_registered (st : Settings) (model : String)
    (hopenai : truthy st.OPENAI_API_KEY = true)
    (hclaude : truthy st.ANTHROPIC_API_KEY = true)
    (hgemini : truthy st.GEMINI_API_KEY = true)
    (hgrok : truthy st.GROK_API_KEY = true) :
    (∀ p, firstRouteMatch model = some p →
        ∃ a, get_adapter_for_model st model = Except.ok a ∧ providerOf a = p)
    ∧ (firstRouteMatch model = none →
        isUnknownModelErr (get_adapter_for_model st model) = true) := by
  unfold firstRouteMatch modelRouteTable get_adapter_for_model
  cases h1 : pyStartswith (pyLower model) "gpt-" <;>
    cases h2 : pyStartswith (pyLower model) "o1-" <;>
      cases h3 : pyStartswith (pyLower model) "text-embedding-" <;>
        cases h4 : pyStartswith (pyLower model) "claude-" <;>
          cases h5 : pyStartswith (pyLower model) "gemini-" <;>
            cases h6 : pyStartswith (pyLower model) "grok-" <;>
              simp_all [List.find?, providerOf, isUnknownModelErr,
                get_adapter_openai_eval, get_adapter_claude_eval,
                get_adapter_gemini_eval, get_adapter_grok_eval,
                show pyStartswith ("Unknown model: " ++ model
                  ++ ". Model must start with a recognized provider prefix (gpt-, claude-, gemini-, grok-, etc.)") "Unknown model: " = true from by
                    simp [pyStartswith, List.append_assoc]]

/-- Witness for C1: at concrete settings, the model `GPT-4o` (first rule,
case-insensitively) resolves to the openai adapter, and `llama-3-70b`
(no rule) fails with the `Unknown model` error. -/
theorem get_adapter_for_model_routes_registered_witness :
    (∃ a, get_adapter_for_model testSettings "GPT-4o" = Except.ok a ∧ providerOf a = "openai")
    ∧ isUnknownModelErr (get_adapter_for_model testSettings "llama-3-70b") = true := by
  refine ⟨?_, ?_⟩
  · exact (get_adapter_for_model_routes_registered testSettings "GPT-4o"
      (by decide) (by decide) (by decide) (by decide)).1 "openai" (by decide)
  · exact (get_adapter_for_model_routes_registered testSettings "llama-3-70b"
      (by decide) (by decide) (by decide) (by decide)).2 (by decide)

/-- One canonical (OpenAI-format) chat message as the adapters read it: the
`role` and `content` keys plus the optional `name` key of the schema, which
the Claude conversion never reads. -/
structure Message where
  role : String
  content : String
  name : Option String
deriving DecidableEq, Repr

/-- One message in Claude's native format: the conversion builds dicts holding
exactly a `role` and a `content` key. -/
structure ClaudeMessage where
  role : String
  content : String
deriving DecidableEq, Repr

/-- Loop of `ClaudeAdapter._convert_messages_to_claude`
(`app/adapters/claude_adapter.py`, lines 17-36): walks the messages in order
carrying the current `system_prompt` value and the accumulated (reversed)
`claude_messages` list; a `system` message overwrites `system_prompt` with its
content, any other message is appended as a role/content pair. -/
def convertGo : List Message → String → List ClaudeMessage → String × List ClaudeMessage
  | [], system_prompt, acc => (system_prompt, acc.reverse)
  | msg :: rest, system_prompt, acc =>
    if msg.role = "system" then
      convertGo rest msg.content acc
    else
      convertGo rest system_prompt (⟨msg.role, msg.content⟩ :: acc)

/-- `ClaudeAdapter._convert_messages_to_claude`: starts from the empty
`system_prompt` and an empty list and runs the loop. -/
def convert_messages_to_claude (messages : List Message) : String × List ClaudeMessage :=
  convertGo messages "" []

/-- Projection of a canonical message to the role/content pair the Claude
conversion emits for non-system turns. -/
def toClaudeMsg (m : Message) : ClaudeMessage := ⟨m.role, m.content⟩

/-- Content of the last `system` message of a list, or the default when the
list holds no `system` message; this is what overwriting in source order
leaves in `system_prompt`. -/
def lastSystemContent (dflt : String) : List Message → String
  | [] => dflt
  | msg :: rest =>
    if msg.role = "system" then lastSystemContent msg.content rest
    else lastSystemContent dflt rest

/-- Closed form of the conversion loop: the system slot ends as the last
system content and the turns are the non-system messages in order. -/
lemma convertGo_eq (ms : List Message) : ∀ (d : String) (acc : List ClaudeMessage),
    convertGo ms d acc
      = (lastSystemContent d ms,
         acc.reverse ++ (ms.filter (fun m => !(m.role == "system"))).map toClaudeMsg) := by
  induction ms with
  | nil => intro d acc; simp [convertGo, lastSystemContent]
  | cons m rest ih =>
    intro d acc
    by_cases h : m.role = "system"
    · simp [convertGo, lastSystemContent, h, ih]
    · simp [convertGo, lastSystemContent, h, ih, toClaudeMsg]

/-- When a message list holds no system message, the loop leaves the system
slot at its incoming value. -/
lemma lastSystemContent_of_no_system (ms : List Message) : ∀ (d : String),
    ms.filter (fun m => m.role == "system") = [] → lastSystemContent d ms = d := by
  induction ms with
  | nil => intro d _; simp [lastSystemContent]
  | cons m rest ih =>
    intro d hf
    by_cases h : m.role = "system"
    · simp [h] at hf
    · rw [List.filter_cons_of_neg (by simp [h])] at hf
      simp [lastSystemContent, h, ih d hf]

/-- When a message list holds exactly one system message, the loop leaves the
system slot at that message's content, whatever the incoming value was. -/
lemma lastSystemContent_of_single_system (ms : List Message) : ∀ (d : String) (s : Message),
    ms.filter (fun m => m.role == "system") = [s] → lastSystemContent d ms = s.content := by
  induction ms with
  | nil => intro d s hf; simp at hf
  | cons m rest ih =>
    intro d s hf
    by_cases h : m.role = "system"
    · rw [List.filter_cons_of_pos (by simp [h])] at hf
      obtain ⟨rfl, hrest⟩ := List.cons_eq_cons.mp hf
      simp [lastSystemContent, h, lastSystemContent_of_no_system rest _ hrest]
    · rw [List.filter_cons_of_neg (by simp [h])] at hf
      simp [lastSystemContent, h, ih d s hf]

/-- C8: for every canonical message list holding exactly one `system` message
and any number of non-system turns, the Claude conversion yields a system
string equal to the original system content and a turn sequence of exactly
the non-system messages with role and content preserved verbatim in their
original relative order. -/
theorem convert_messages_single_system (ms : List Message) (s : Message)
    (hsys : ms.filter (fun m => m.role == "system") = [s]) :
    (convert_messages_to_claude ms).1 = s.content
    ∧ (convert_messages_to_claude ms).2
        = (ms.filter (fun m => !(m.role == "system"))).map toClaudeMsg := by
  rw [convert_messages_to_claude, convertGo_eq,
    lastSystemContent_of_single_system ms "" s hsys]
  simp

/-- Witness for C8: one system message between two turn messages converts to
that system content and the two turns in order. -/
theorem convert_messages_single_system_witness :
    (convert_messages_to_claude
        [⟨"user", "hi", none⟩, ⟨"system", "be brief", none⟩, ⟨"assistant", "ok", none⟩]).1
        = "be brief"
    ∧ (convert_messages_to_claude
        [⟨"user", "hi", none⟩, ⟨"system", "be brief", none⟩, ⟨"assistant", "ok", none⟩]).2
        = [⟨"user", "hi"⟩, ⟨"assistant", "ok"⟩] := by
  have h := convert_messages_single_system
    [⟨"user", "hi", none⟩, ⟨"system", "be brief", none⟩, ⟨"assistant", "ok", none⟩]
    ⟨"system", "be brief", none⟩ (by decide)
  exact ⟨h.1, by rw [h.2]; decide⟩

/-- C2 (code bug): at a list of two `system` messages the conversion keeps only
the last content, `"B"`, and not the first-to-last concatenation `"A" ++ "B"` —
the loop overwrites `system_prompt` instead of concatenating. -/
theorem convert_messages_overwrites_multiple_system :
    convert_messages_to_claude [⟨"system", "A", none⟩, ⟨"system", "B", none⟩] = ("B", [])
    ∧ ¬ (convert_messages_to_claude [⟨"system", "A", none⟩, ⟨"system", "B", none⟩]).1
        = "A" ++ "B" := by
  refine ⟨by decide, by decide⟩

/-- Usage block of a Claude API response (`input_tokens`/`output_tokens`). -/
structure ClaudeUsage where
  input_tokens : Nat
  output_tokens : Nat
deriving DecidableEq, Repr

/-- One content block of a Claude API response; the conversion reads the
`text` of the first block. -/
structure ContentBlock where
  text : String
deriving DecidableEq, Repr

/-- The parts of a Claude messages-API response that
`_convert_claude_to_openai` reads. -/
structure ClaudeApiResponse where
  id : String
  content : List ContentBlock
  stop_reason : Option String
  usage : ClaudeUsage
deriving DecidableEq, Repr

/-- Usage block of the OpenAI-format response the adapter builds. -/
structure Usage where
  prompt_tokens : Nat
  completion_tokens : Nat
  total_tokens : Nat
deriving DecidableEq, Repr

/-- Message part of a response choice. -/
structure ChoiceMessage where
  role : String
  content : String
deriving DecidableEq, Repr

/-- One choice of the OpenAI-format response. -/
structure Choice where
  index : Nat
  message : ChoiceMessage
  finish_reason : Option String
deriving DecidableEq, Repr

/-- OpenAI-format chat response dict built by `_convert_claude_to_openai`. -/
structure ChatResponse where
  id : String
  object : String
  created : Nat
  model : String
  choices : List Choice
  usage : Usage
deriving DecidableEq, Repr

/-- `ClaudeAdapter._convert_claude_to_openai` (`app/adapters/claude_adapter.py`,
lines 38-58): copies the id, stamps the current time (`now` models
`int(time.time())`), echoes the requested model, wraps the first content
block's text as the single assistant choice with Claude's `stop_reason`, and
reports usage with `total_tokens` computed as input plus output tokens.
Accessing `content[0]` raises `IndexError` on an empty content list, modelled
as `none`. -/
def convert_claude_to_openai (claude_response : ClaudeApiResponse) (model : String)
    (now : Nat) : Option ChatResponse :=
  match claude_response.content with
  | [] => none
  | block :: _ =>
    some ⟨claude_response.id, "chat.completion", now, model,
      [⟨0, ⟨"assistant", block.text⟩, claude_response.stop_reason⟩],
      ⟨claude_response.usage.input_tokens, claude_response.usage.output_tokens,
       claude_response.usage.input_tokens + claude_response.usage.output_tokens⟩⟩

/-- C9: every denormalized chat response the Claude adapter produces reports
`total_tokens` equal to `prompt_tokens + completion_tokens` (both are always
present in this conversion). -/
theorem convert_claude_to_openai_usage_total (claude_response : ClaudeApiResponse)
    (model : String) (now : Nat) (resp : ChatResponse)
    (h : convert_claude_to_openai claude_response model now = some resp) :
    resp.usage.total_tokens = resp.usage.prompt_tokens + resp.usage.completion_tokens := by
  unfold convert_claude_to_openai at h
  cases hc : claude_response.content with
  | nil => rw [hc] at h; cases h
  | cons block rest =>
    rw [hc] at h
    cases h
    rfl

/-- Witness for C9: a concrete Claude response with 3 input and 5 output
tokens denormalizes with `total_tokens = 3 + 5`. -/
theorem convert_claude_to_openai_usage_total_witness :
    (⟨3, 5, 8⟩ : Usage).total_tokens = (⟨3, 5, 8⟩ : Usage).prompt_tokens + (⟨3, 5, 8⟩ : Usage).completion_tokens := by
  exact convert_claude_to_openai_usage_total
    ⟨"msg_01", [⟨"Hello"⟩], some "end_turn", ⟨3, 5⟩⟩ "claude-3-opus-20240229" 1700000000
    ⟨"msg_01", "chat.completion", 1700000000, "claude-3-opus-20240229",
      [⟨0, ⟨"assistant", "Hello"⟩, some "end_turn"⟩], ⟨3, 5, 8⟩⟩ (by decide)

/-- The request dict keys `ClaudeAdapter.chat_completion` and
`chat_completion_stream` read via `request.get(...)`: `none` models an absent
key (the router serializes the canonical request with `exclude_none=True`).
Temperature is a rational stand-in for the Python float; no arithmetic is
performed on it. -/
structure ChatRequestDict where
  model : Option String
  messages : List Message
  max_tokens : Option Nat
  temperature : Option Rat
deriving DecidableEq, Repr

/-- Keyword arguments the Claude adapter passes to
`client.messages.create(...)` / `client.messages.stream(...)`. -/
structure ClaudeCreateArgs where
  model : String
  max_tokens : Nat
  temperature : Rat
  system : Option String
  messages : List ClaudeMessage
deriving DecidableEq, Repr

/-- Parameter extraction of `ClaudeAdapter.chat_completion`
(`app/adapters/claude_adapter.py`, lines 60-87): `request.get` defaults —
model `claude-3-sonnet-20240229`, messages `[]`, `max_tokens` 1024,
`temperature` 1.0 — then the message conversion, with the system argument
`None` when the extracted system prompt is falsy (empty). -/
def claude_chat_completion_args (request : ChatRequestDict) : ClaudeCreateArgs :=
  let model := request.model.getD "claude-3-sonnet-20240229"
  let messages := request.messages
  let max_tokens := request.max_tokens.getD 1024
  let temperature := request.temperature.getD 1
  let conv := convert_messages_to_claude messages
  ⟨model, max_tokens, temperature,
    if conv.1 = "" then none else some conv.1, conv.2⟩

/-- Parameter extraction of `ClaudeAdapter.chat_completion_stream`
(`app/adapters/claude_adapter.py`, lines 89-129), which repeats the same
`request.get` defaults and conversion before calling
`client.messages.stream(...)`. -/
def claude_chat_completion_stream_args (request : ChatRequestDict) : ClaudeCreateArgs :=
  let model := request.model.getD "claude-3-sonnet-20240229"
  let messages := request.messages
  let max_tokens := request.max_tokens.getD 1024
  let temperature := request.temperature.getD 1
  let conv := convert_messages_to_claude messages
  ⟨model, max_tokens, temperature,
    if conv.1 = "" then none else some conv.1, conv.2⟩

/-- C10: for every canonical request that omits `max_tokens`, both the
synchronous and the streaming Claude call pass `max_tokens = 1024` upstream
(whatever the other fields hold), and when the request also omits
`temperature` they pass `temperature = 1.0`; the omission is silently
replaced by these fixed defaults. -/
theorem claude_call_defaults (request : ChatRequestDict)
    (hmt : request.max_tokens = none) :
    ((claude_chat_completion_args request).max_tokens = 1024
      ∧ (claude_chat_completion_stream_args request).max_tokens = 1024)
    ∧ (request.temperature = none →
        (claude_chat_completion_args request).temperature = 1
        ∧ (claude_chat_completion_stream_args request).temperature = 1) := by
  constructor
  · exact ⟨by simp [claude_chat_completion_args, hmt],
           by simp [claude_chat_completion_stream_args, hmt]⟩
  · intro htemp
    exact ⟨by simp [claude_chat_completion_args, htemp],
           by simp [claude_chat_completion_stream_args, htemp]⟩

/-- Witness for C10: a concrete request that omits `max_tokens` but supplies a
temperature is still sent with `max_tokens = 1024`, and one omitting both is
sent with `temperature = 1`. -/
theorem claude_call_defaults_witness :
    ((claude_chat_completion_args ⟨none, [⟨"user", "hi", none⟩], none, some (7 / 10)⟩).max_tokens = 1024
      ∧ (claude_chat_completion_stream_args ⟨none, [⟨"user", "hi", none⟩], none, some (7 / 10)⟩).max_tokens = 1024)
    ∧ ((claude_chat_completion_args ⟨none, [⟨"user", "hi", none⟩], none, none⟩).temperature = 1
      ∧ (claude_chat_completion_stream_args ⟨none, [⟨"user", "hi", none⟩], none, none⟩).temperature = 1) :=
  ⟨(claude_call_defaults ⟨none, [⟨"user", "hi", none⟩], none, some (7 / 10)⟩ rfl).1,
   (claude_call_defaults ⟨none, [⟨"user", "hi", none⟩], none, none⟩ rfl).2 rfl⟩

/-- How the adapter's chunk sequence terminates: normal completion, or an
exception raised while producing the next chunk. -/
inductive StreamEnd where
  | done
  | raises (msg : String)
deriving DecidableEq, Repr

/-- One wire event emitted by the SSE generator. `data c` is the line
`"data: " ++ c ++ "\n\n"` for a serialized chunk `c`; `doneSentinel` is the
literal `"data: [DONE]\n\n"` line; `streamError m` is the error dict
`\x7b"error": \x7b"message": m, "type": "stream_error"\x7d\x7d` serialized as
a data line (see `renderEvent`). -/
inductive WireEvent (α : Type) where
  | data (chunk : α)
  | doneSentinel
  | streamError (message : String)
deriving DecidableEq, Repr

/-- `stream_generator` inside `create_chat_completion`
(`app/routers/chat.py`, lines 31-49): pulls chunks from the adapter's stream
inside a `try`, yielding one data event per chunk; when the stream completes
it yields the `[DONE]` sentinel once; when pulling the next chunk raises, the
`except` clause yields a single error-shaped data event and the generator
ends (nothing is re-raised and no sentinel follows an error). The adapter's
stream is modelled as the list of chunks it produces before terminating,
together with how it terminates. -/
def stream_generator {α : Type} : List α → StreamEnd → List (WireEvent α)
  | chunk :: rest, ending => WireEvent.data chunk :: stream_generator rest ending
  | [], StreamEnd.done => [WireEvent.doneSentinel]
  | [], StreamEnd.raises msg => [WireEvent.streamError msg]

/-- Serialization of one wire event to the transport, with chunks already
serialized (`json.dumps` of the error dict uses default separators). -/
def renderEvent : WireEvent String → String
  | WireEvent.data c => "data: " ++ c ++ "\n\n"
  | WireEvent.doneSentinel => "data: [DONE]\n\n"
  | WireEvent.streamError msg =>
      "data: \x7b\"error\": \x7b\"message\": \"" ++ msg
        ++ "\", \"type\": \"stream_error\"\x7d\x7d\n\n"

/-- C7: for every chunk sequence that completes normally, the generator's wire
output is exactly one data event per chunk, in the adapter's order, followed
by exactly one `data: [DONE]` sentinel, and the stream ends after the
sentinel. -/
theorem stream_generator_success_shape (chunks : List String) :
    stream_generator chunks StreamEnd.done
      = chunks.map WireEvent.data ++ [WireEvent.doneSentinel]
    ∧ (stream_generator chunks StreamEnd.done).map renderEvent
      = chunks.map (fun c => "data: " ++ c ++ "\n\n") ++ ["data: [DONE]\n\n"] := by
  have h : stream_generator chunks StreamEnd.done
      = chunks.map WireEvent.data ++ [WireEvent.doneSentinel] := by
    induction chunks with
    | nil => rfl
    | cons c rest ih => simp [stream_generator, ih]
  refine ⟨h, ?_⟩
  rw [h]
  simp [renderEvent]

/-- C6: for every chunk sequence that yields `n` chunks and then raises, the
generator emits exactly the `n` data events followed by exactly one terminal
error-shaped event and then ends; the exception is never re-raised (the
output is a total, finite event list) and no sentinel follows the error. -/
theorem stream_generator_error_shape (chunks : List String) (msg : String) :
    stream_generator chunks (StreamEnd.raises msg)
      = chunks.map WireEvent.data ++ [WireEvent.streamError msg]
    ∧ (stream_generator chunks (StreamEnd.raises msg)).length = chunks.length + 1 := by
  have h : stream_generator chunks (StreamEnd.raises msg)
      = chunks.map WireEvent.data ++ [WireEvent.streamError msg] := by
    induction chunks with
    | nil => rfl
    | cons c rest ih => simp [stream_generator, ih]
  exact ⟨h, by rw [h]; simp⟩

/-- One model descriptor as the adapters report it (`id`, `object`,
`owned_by`, optional `created`). -/
structure ModelDescriptor where
  id : String
  object : String
  owned_by : String
  created : Option Nat
deriving DecidableEq, Repr

/-- Provider list built by `list_models` (`app/routers/models.py`,
lines 18-32): the providers whose required credentials are truthy, appended in
the source's fixed configuration order (openai, claude, gemini, grok, azure,
bedrock); azure needs key and endpoint, bedrock needs both AWS keys. -/
def configured_providers (st : Settings) : List String :=
  (if truthy st.OPENAI_API_KEY then ["openai"] else [])
  ++ (if truthy st.ANTHROPIC_API_KEY then ["claude"] else [])
  ++ (if truthy st.GEMINI_API_KEY then ["gemini"] else [])
  ++ (if truthy st.GROK_API_KEY then ["grok"] else [])
  ++ (if truthy st.AZURE_OPENAI_API_KEY && truthy st.AZURE_OPENAI_ENDPOINT then ["azure"] else [])
  ++ (if truthy st.AWS_ACCESS_KEY_ID && truthy st.AWS_SECRET_ACCESS_KEY then ["bedrock"] else [])

/-- Aggregation loop of `list_models` (`app/routers/models.py`, lines 34-50):
for each configured provider the `try` body resolves the adapter, awaits its
`list_models()` and extends `all_models` with the returned `data` list; any
exception in the body is logged and the provider skipped (`continue`). The
per-provider call is modelled by `outcome`: either the descriptor list the
provider's response carries under `"data"` (every adapter returns such a
dict), or the exception message. -/
def list_models_data (providers : List String)
    (outcome : String → Except String (List ModelDescriptor)) : List ModelDescriptor :=
  providers.foldl
    (fun all_models provider =>
      match outcome provider with
      | Except.ok data => all_models ++ data
      | Except.error _ => all_models)
    []

/-- Closed form of the aggregation loop for any starting accumulator. -/
lemma list_models_foldl_eq (outcome : String → Except String (List ModelDescriptor)) :
    ∀ (providers : List String) (acc : List ModelDescriptor),
    providers.foldl
      (fun all_models provider =>
        match outcome provider with
        | Except.ok data => all_models ++ data
        | Except.error _ => all_models)
      acc
    = acc ++ providers.flatMap (fun provider =>
        match outcome provider with
        | Except.ok data => data
        | Except.error _ => []) := by
  intro providers
  induction providers with
  | nil => intro acc; simp
  | cons p rest ih =>
    intro acc
    cases h : outcome p <;> simp [List.foldl_cons, h, ih, List.append_assoc]

/-- C5: for every settings (hence every list of configured providers) and
every pattern of per-provider outcomes, the aggregated catalog is exactly the
concatenation of the descriptor lists of the succeeding providers, in
provider-configuration order, with no deduplication; failing providers are
skipped and no exception escapes (the aggregation is a total function). -/
theorem list_models_aggregates_healthy_providers (st : Settings)
    (outcome : String → Except String (List ModelDescriptor)) :
    list_models_data (configured_providers st) outcome
      = (configured_providers st).flatMap (fun provider =>
          match outcome provider with
          | Except.ok data => data
          | Except.error _ => []) := by
  unfold list_models_data
  rw [list_models_foldl_eq]
  simp

/-- Object-identity view of `AdapterFactory.get_adapter`: every branch of the
source ends in a constructor call (`OpenAIAdapter(...)`, `ClaudeAdapter(...)`,
...), which allocates a new Python object. `next_obj` is the allocation
counter; a successful call returns the adapter value tagged with a fresh
object identity and bumps the counter, a failing call allocates nothing. -/
def get_adapter_alloc (st : Settings) (provider : String) (next_obj : Nat) :
    Except String (Adapter × Nat) × Nat :=
  match get_adapter st provider with
  | Except.ok a => (Except.ok (a, next_obj), next_obj + 1)
  | Except.error e => (Except.error e, next_obj)

/-- Counterexample to C4: two successive resolutions of the same provider
return adapters with distinct object identities (0, then 1) — the factory
constructs a new instance on every call instead of returning one cached
instance. -/
theorem get_adapter_not_cached_counterexample :
    (get_adapter_alloc testSettings "openai" 0).1
      = Except.ok (Adapter.openai "sk-openai-test", 0)
    ∧ (get_adapter_alloc testSettings "openai" (get_adapter_alloc testSettings "openai" 0).2).1
      = Except.ok (Adapter.openai "sk-openai-test", 1)
    ∧ (0 : Nat) ≠ 1 := by
  refine ⟨by decide, by decide, by decide⟩

/-- C4 (amended): resolution has no side effect beyond constructing and
returning an adapter instance, but every successful call constructs a fresh
instance — the returned identity is the current allocation counter and the
counter advances by exactly one, so two resolutions never share an instance;
on failure nothing is allocated. -/
theorem get_adapter_allocates_fresh_per_call (st : Settings) (provider : String)
    (n : Nat) (a : Adapter) (i m : Nat)
    (h : get_adapter_alloc st provider n = (Except.ok (a, i), m)) :
    i = n ∧ m = n + 1 ∧ get_adapter st provider = Except.ok a := by
  unfold get_adapter_alloc at h
  cases hg : get_adapter st provider <;> rw [hg] at h <;> simp_all
  omega

/-- Witness for the amended C4 at a concrete resolution. -/
theorem get_adapter_allocates_fresh_per_call_witness :
    (0 : Nat) = 0 ∧ (1 : Nat) = 0 + 1
    ∧ get_adapter testSettings "openai" = Except.ok (Adapter.openai "sk-openai-test") :=
  get_adapter_allocates_fresh_per_call testSettings "openai" 0
    (Adapter.openai "sk-openai-test") 0 1 (by decide)

/-- Python exception classes the embedding path distinguishes: `ValueError`
(raised by the factory), `NotImplementedError` (raised by adapters without
embedding capability) and any other `Exception`. -/
inductive PyError where
  | valueError (msg : String)
  | notImplementedError (msg : String)
  | otherError (msg : String)
deriving DecidableEq, Repr

/-- Message carried by an exception. -/
def PyError.message : PyError → String
  | PyError.valueError msg => msg
  | PyError.notImplementedError msg => msg
  | PyError.otherError msg => msg

/-- HTTP status chosen by the router's handlers (`app/routers/embeddings.py`,
lines 43-48): `except ValueError` maps to 400, the generic `except Exception`
maps to 500; `NotImplementedError` is not a `ValueError`, so it reaches the
generic handler. -/
def http_status_of : PyError → Nat
  | PyError.valueError _ => 400
  | _ => 500

/-- Dispatch of `adapter.create_embedding(request_dict)` per adapter class:
`ClaudeAdapter.create_embedding` (`app/adapters/claude_adapter.py`,
lines 131-135) raises `NotImplementedError("Claude does not support
embeddings")` before any client call, so the upstream network is not
contacted (`false` in the second component); the azure, bedrock, gemini and
grok adapters likewise raise `NotImplementedError` without a network call;
only the openai adapter calls its client, whose outcome (success or wrapped
error) is the environment parameter `net`. -/
def adapter_create_embedding (ρ : Type) (a : Adapter) (net : Except PyError ρ) :
    Except PyError ρ × Bool :=
  match a with
  | Adapter.claude _ =>
    (Except.error (PyError.notImplementedError "Claude does not support embeddings"), false)
  | Adapter.azure _ _ =>
    (Except.error (PyError.notImplementedError "Azure embeddings not yet implemented"), false)
  | Adapter.bedrock _ _ _ =>
    (Except.error (PyError.notImplementedError "Bedrock embeddings not yet implemented"), false)
  | Adapter.gemini _ =>
    (Except.error (PyError.notImplementedError "Gemini embeddings not yet implemented"), false)
  | Adapter.grok _ =>
    (Except.error (PyError.notImplementedError "Grok embeddings not yet implemented"), false)
  | Adapter.openai _ => (net, true)

/-- `create_embedding` route (`app/routers/embeddings.py`): resolves the
adapter for the model (a factory `ValueError` is caught and mapped to 400),
calls the adapter's `create_embedding`, and maps an adapter exception to the
status `http_status_of` picks with the exception's message as detail. The
second component records whether the upstream network was contacted. -/
def embeddings_route (ρ : Type) (st : Settings) (model : String)
    (net : Except PyError ρ) : Except (Nat × String) ρ × Bool :=
  match get_adapter_for_model st model with
  | Except.error msg => (Except.error (400, msg), false)
  | Except.ok a =>
    match adapter_create_embedding ρ a net with
    | (Except.ok resp, contacted) => (Except.ok resp, contacted)
    | (Except.error e, contacted) =>
      (Except.error (http_status_of e, e.message), contacted)

/-- Counterexample to C3: a concrete embedding request for a `claude-` model
is rejected with HTTP status 500 — not a 400-class status — because
`NotImplementedError` falls to the generic `except Exception` handler; the
error does name the missing capability and the network is not contacted. -/
theorem embeddings_claude_maps_to_500 :
    embeddings_route Unit testSettings "claude-3-opus-20240229"
        (Except.error (PyError.otherError "unused"))
      = (Except.error (500, "Claude does not support embeddings"), false)
    ∧ ¬ (400 ≤ 500 ∧ (500 : Nat) < 500) := by
  refine ⟨by decide, by decide⟩

/-- C3 (amended): every embedding request resolved to the Claude adapter fails
with the `NotImplementedError` naming the missing capability, the upstream
network is never contacted, and at the boundary the failure is mapped to the
500-class generic-exception status (only `ValueError` maps to 400), not a
400-class error. -/
theorem embeddings_unsupported_on_claude (ρ : Type) (st : Settings) (model : String)
    (api_key : String) (net : Except PyError ρ)
    (h : get_adapter_for_model st model = Except.ok (Adapter.claude api_key)) :
    embeddings_route ρ st model net
      = (Except.error (500, "Claude does not support embeddings"), false) := by
  unfold embeddings_route
  rw [h]
  rfl

/-- Witness for the amended C3 at a concrete claude model and settings. -/
theorem embeddings_unsupported_on_claude_witness :
    embeddings_route Unit testSettings "claude-3-5-sonnet-20241022" (Except.ok ())
      = (Except.error (500, "Claude does not support embeddings"), false) :=
  embeddings_unsupported_on_claude Unit testSettings "claude-3-5-sonnet-20241022"
    "sk-ant-test" (Except.ok ()) (by decide)
